import Mathlib

/-!
Verification of the EcoSound Garden core against its specification.

The development shallowly embeds the algorithmic core of the repository:
`src/lib/iotSimulator.ts` (per-plant sensor-state simulation), `src/lib/tfModels.ts`
(dual-path health prediction and acoustic stress analysis) and
`src/app/api/sensors/ingest/route.ts` (the ingestion endpoint).  JavaScript
numbers are modelled as exact rationals; `Math.round` is modelled as
`fun x => floor (x + 1/2)` (ties toward positive infinity, as in JS), and
`Math.min` / `Math.max` / `Math.abs` by the corresponding conditionals.
-/

/-- Model of JavaScript `Math.min` on numbers. -/
def jsMin (a b : ℚ) : ℚ := if a ≤ b then a else b

/-- Model of JavaScript `Math.max` on numbers. -/
def jsMax (a b : ℚ) : ℚ := if a ≤ b then b else a

/-- Model of JavaScript `Math.abs` on numbers. -/
def jsAbs (x : ℚ) : ℚ := if x < 0 then -x else x

/-- Model of JavaScript `Math.round`: rounds to the nearest integer,
ties toward positive infinity. -/
def jsRound (x : ℚ) : ℤ := ⌊x + 1/2⌋

/-- `Math.round(x * 10) / 10` — one decimal place, used for display rounding. -/
def round1 (x : ℚ) : ℚ := (jsRound (x * 10) : ℚ) / 10

/-- `Math.round(x * 100) / 100` — two decimal places, used for confidences. -/
def round2 (x : ℚ) : ℚ := (jsRound (x * 100) : ℚ) / 100

/-- `Math.round(x * 1000) / 1000` — three decimal places, used for stress levels. -/
def round3 (x : ℚ) : ℚ := (jsRound (x * 1000) : ℚ) / 1000

/-- Model of JavaScript `Math.sqrt`, as the Mathlib rational square root.
It agrees with the exact real square root on every rational whose numerator
and denominator are perfect squares, which covers every concrete input this
file evaluates it at (the evaluations below only take `jsSqrt 1`). -/
def jsSqrt (q : ℚ) : ℚ := Rat.sqrt q

/-! ## `src/lib/tfModels.ts` -/

/-- Input of `predictPlantHealth` (interface `PlantHealthInput`). -/
structure PlantHealthInput where
  healthScore : ℚ
  temperature : ℚ
  humidity : ℚ
deriving DecidableEq

/-- The three trend labels of `PredictionResult`. -/
inductive Trend
  | improving
  | stable
  | declining
deriving DecidableEq

/-- Result record of `predictPlantHealth` (interface `PredictionResult`). -/
structure PredictionResult where
  predictedHealth : ℚ
  confidence : ℚ
  trend : Trend
deriving DecidableEq

/-- The observable state of the module-level `healthModel` / `window.tf`
globals at the time `predictPlantHealth` runs:
* `noModel` — `healthModel` is null or TensorFlow is unavailable, so the
  `else` branch (heuristic fallback) runs;
* `inferenceError` — a model is loaded but `model.predict` (or the
  surrounding tensor code) throws, so the inner `catch` runs;
* `inference out0 out1` — inference succeeds and `prediction.dataSync()`
  yields `out0` and `out1` (a missing or NaN second output is modelled
  as `out1 = 0`, which is exactly what the `values[1] || 0.75` test treats
  as absent). -/
inductive HealthModelState
  | noModel
  | inferenceError
  | inference (out0 out1 : ℚ)
deriving DecidableEq

/-- The pair (`predictedHealth`, `confidence`) as the two local variables of
`predictPlantHealth` stand right after the model/fallback branch, i.e. at
line 142 of `tfModels.ts`, before trend classification and clamping.
* `inferenceError`: the initial values `input.healthScore` and `0.7`
  survive the inner `catch`;
* `inference`: `Math.round(values[0] * 100)` and `values[1] || 0.75`;
* `noModel`: the heuristic fallback formula with confidence `0.65`. -/
def predictRaw (m : HealthModelState) (input : PlantHealthInput) : ℚ × ℚ :=
  match m with
  | .inferenceError => (input.healthScore, 7/10)
  | .inference out0 out1 =>
      ((jsRound (out0 * 100) : ℚ), if out1 = 0 then 3/4 else out1)
  | .noModel =>
      let tempScore := 100 - jsAbs (input.temperature - 23) * 5
      let humidityScore := 100 - jsAbs (input.humidity - 60) * (3/2)
      ((jsRound (input.healthScore * (1/2) + tempScore * (1/4) +
          humidityScore * (1/4)) : ℚ), 13/20)

/-- `predictPlantHealth` of `tfModels.ts`: branch on the model state, classify
the trend from the unclamped predicted value (±5 deadband), then return the
value clamped to [0, 100] with the confidence rounded to two decimals.
The function is total: the outer `try` body performs only arithmetic, which in
JavaScript never throws on numbers, so no exception reaches the caller. -/
def predictPlantHealth (m : HealthModelState) (input : PlantHealthInput) :
    PredictionResult :=
  let pc := predictRaw m input
  let predictedHealth := pc.1
  let confidence := pc.2
  let trend : Trend :=
    if predictedHealth > input.healthScore + 5 then .improving
    else if predictedHealth < input.healthScore - 5 then .declining
    else .stable
  ⟨jsMax 0 (jsMin 100 predictedHealth), round2 confidence, trend⟩

/-- The outer `catch` clause of `predictPlantHealth` (lines 155–162 of
`tfModels.ts`): the result produced if anything inside the `try` block
were to throw. -/
def predictPlantHealthOnError (input : PlantHealthInput) : PredictionResult :=
  ⟨input.healthScore, 1/2, .stable⟩

/-- The three classification labels of `AcousticResult`. -/
inductive Classification
  | healthy
  | moderate_stress
  | high_stress
deriving DecidableEq

/-- Result record of `analyzeAcousticPattern` (interface `AcousticResult`). -/
structure AcousticResult where
  stressLevel : ℚ
  classification : Classification
  confidence : ℚ
deriving DecidableEq

/-- The observable state of the `acousticModel` / `window.tf` globals when
`analyzeAcousticPattern` runs, analogous to `HealthModelState`. -/
inductive AcousticModelState
  | noModel
  | inferenceError
  | inference (out0 out1 : ℚ)
deriving DecidableEq

/-- The heuristic fallback stress of `analyzeAcousticPattern` (lines 198–205
of `tfModels.ts`): the coefficient of variation of the feature vector,
capped above by 1 (with no lower cap), blended 70/30 with `1 − health/100`. -/
def acousticFallbackStress (audioFeatures : List ℚ) (plantHealthScore : ℚ) : ℚ :=
  let n : ℚ := audioFeatures.length
  let mean := audioFeatures.sum / n
  let variance := (audioFeatures.map (fun v => (v - mean) ^ 2)).sum / n
  let cv := jsMin 1 (jsSqrt variance / (mean + 1/1000))
  let healthFactor := 1 - plantHealthScore / 100
  cv * (7/10) + healthFactor * (3/10)

/-- The classification thresholds of `analyzeAcousticPattern`
(lines 210–216 of `tfModels.ts`), applied to the unrounded stress. -/
def classifyStress (stressLevel : ℚ) : Classification :=
  if stressLevel > 7/10 then .high_stress
  else if stressLevel > 2/5 then .moderate_stress
  else .healthy

/-- `analyzeAcousticPattern` of `tfModels.ts`: empty feature vectors
short-circuit to the neutral result; otherwise the stress level and
confidence come from the model (clamped to [0,1] there), or keep the values
`0.5` / `0.65` through the inner `catch`, or come from the heuristic
fallback; classification uses the fixed thresholds `0.7` and `0.4` on the
unrounded stress, and the returned fields are rounded to 3 resp. 2
decimals. -/
def analyzeAcousticPattern (m : AcousticModelState) (audioFeatures : List ℚ)
    (plantHealthScore : ℚ) : AcousticResult :=
  if audioFeatures.isEmpty then
    ⟨1/2, .healthy, 1/2⟩
  else
    let sc : ℚ × ℚ :=
      match m with
      | .inferenceError => (1/2, 13/20)
      | .inference out0 out1 =>
          (jsMin 1 (jsMax 0 out0), if out1 = 0 then 13/20 else out1)
      | .noModel =>
          let stress := acousticFallbackStress audioFeatures plantHealthScore
          (stress, 6/10 + (2/10) * (1 - jsAbs (stress - 1/2)))
    ⟨round3 sc.1, classifyStress sc.1, round2 sc.2⟩

/-- The `catch` clause of `analyzeAcousticPattern` (lines 223–230 of
`tfModels.ts`). -/
def analyzeAcousticPatternOnError : AcousticResult := ⟨1/2, .healthy, 1/2⟩

/-! ## `src/lib/iotSimulator.ts` -/

/-- The mutable per-plant simulation state (interface `PlantState`).
Timestamps (`lastWatered`, and the `now` arguments below) are in
milliseconds since the epoch, as `Date.now()` returns them. -/
structure PlantState where
  plantId : ℚ
  temperature : ℚ
  humidity : ℚ
  soilMoisture : ℚ
  lightIntensity : ℚ
  lastWatered : ℚ
  stressLevel : ℚ
deriving DecidableEq

/-- The value record returned by `generateSensorReading`
(interface `SensorReading`). -/
structure SensorReading where
  plantId : ℚ
  temperature : ℚ
  humidity : ℚ
  soilMoisture : ℚ
  lightIntensity : ℚ
  timestamp : ℚ
  acousticData : List ℚ
deriving DecidableEq

/-- `initializeSensorState`: the state seeded for a fresh plant id.
`r1 … r6` are the six `Math.random()` draws (each in [0, 1)), `now` is the
current epoch time in milliseconds; `7 * 24 * 60 * 60 * 1000 = 604800000`. -/
def initializeSensorState (plantId optimalTemp r1 r2 r3 r4 r5 r6 now : ℚ) :
    PlantState :=
  ⟨plantId,
   optimalTemp + (r1 - 1/2) * 4,
   60 + (r2 - 1/2) * 20,
   60 + (r3 - 1/2) * 30,
   500 + (r4 - 1/2) * 200,
   now - r5 * 604800000,
   r6 * (3/10)⟩

/-- The state-transition part of `generateSensorReading` (lines 54–80 of
`iotSimulator.ts`): one bounded random-walk step on the four metrics,
moisture decay from the hours elapsed since `lastWatered`, and the stress
recomputation.  `r1 … r4` are the four `Math.random()` draws and `now` is
`Date.now()` in milliseconds (`1000 * 60 * 60 = 3600000`). -/
def advanceState (s : PlantState) (r1 r2 r3 r4 now : ℚ) : PlantState :=
  let tempChange := (r1 - 1/2) * (1/2)
  let humidityChange := (r2 - 1/2) * 2
  let moistureChange := (r3 - 1/2) * 3
  let lightChange := (r4 - 1/2) * 50
  let temperature := jsMax 15 (jsMin 35 (s.temperature + tempChange))
  let humidity := jsMax 20 (jsMin 95 (s.humidity + humidityChange))
  let soilMoisture0 := jsMax 10 (jsMin 100 (s.soilMoisture + moistureChange))
  let lightIntensity := jsMax 0 (jsMin 1000 (s.lightIntensity + lightChange))
  let hoursSinceWatered := (now - s.lastWatered) / 3600000
  let soilMoisture := jsMax 10 (soilMoisture0 - hoursSinceWatered * (15/100))
  let tempStress := jsAbs (temperature - 22) / 10
  let humidityStress := jsAbs (humidity - 60) / 30
  let moistureStress := jsAbs (soilMoisture - 60) / 50
  let stressLevel := jsMin 1 ((tempStress + humidityStress + moistureStress) / 3)
  { s with
    temperature := temperature
    humidity := humidity
    soilMoisture := soilMoisture
    lightIntensity := lightIntensity
    stressLevel := stressLevel }

/-- `generateAcousticPattern`: 20 frequencies interpolating the healthy base
set `{100,150,200,250}` and the stress set `{800,1200,1600,2000}` by the
stress level, each jittered by `(Math.random() − 0.5) * 50 * stressLevel`;
`noise i` is the draw for index `i`. -/
def generateAcousticPattern (stressLevel : ℚ) (noise : ℕ → ℚ) : List ℚ :=
  let healthyBase : ℕ → ℚ := fun i => [100, 150, 200, 250].getD i 0
  let stressFreqs : ℕ → ℚ := fun i => [800, 1200, 1600, 2000].getD i 0
  (List.range 20).map fun i =>
    healthyBase (i % 4) * (1 - stressLevel) + stressFreqs (i % 4) * stressLevel +
      (noise i - 1/2) * 50 * stressLevel

/-- `generateSensorReading` for a plant whose state `s` already exists:
advances the state with full precision and returns it together with the
`SensorReading`, whose metric fields are display-rounded (one decimal for
temperature/humidity/moisture, integer for light). -/
def generateSensorReading (s : PlantState) (r1 r2 r3 r4 now : ℚ)
    (noise : ℕ → ℚ) : PlantState × SensorReading :=
  let st := advanceState s r1 r2 r3 r4 now
  (st,
   ⟨st.plantId,
    round1 st.temperature,
    round1 st.humidity,
    round1 st.soilMoisture,
    (jsRound st.lightIntensity : ℚ),
    now,
    generateAcousticPattern st.stressLevel noise⟩)

/-- The state mutation of `waterPlant` on an existing state (lines 117–120
of `iotSimulator.ts`): `soilMoisture = Math.min(90, soilMoisture + 40)` and
`lastWatered = new Date()`. -/
def waterState (s : PlantState) (now : ℚ) : PlantState :=
  { s with soilMoisture := jsMin 90 (s.soilMoisture + 40), lastWatered := now }

/-- The module-level `plantStates` map, keyed by plant id. -/
def PlantStore : Type := ℚ → Option PlantState

/-- `waterPlant` of `iotSimulator.ts` at the store level: looks the plant up
and, only if a state exists, applies `waterState` — otherwise the store is
left untouched. -/
def waterPlant (store : PlantStore) (plantId now : ℚ) : PlantStore :=
  match store plantId with
  | none => store
  | some s => fun j => if j = plantId then some (waterState s now) else store j

/-- `getPlantState` of `iotSimulator.ts`. -/
def getPlantState (store : PlantStore) (plantId : ℚ) : Option PlantState :=
  store plantId

/-- The states of the simulator reachable through its public operations:
initialization (with `Math.random()` draws in [0, 1)), `generateSensorReading`
steps (draws in [0, 1), called no earlier than the last watering), and
`waterPlant`. -/
inductive ReachableState : PlantState → Prop
  | init (plantId optimalTemp r1 r2 r3 r4 r5 r6 now : ℚ)
      (h1 : 0 ≤ r1) (h1' : r1 < 1) (h2 : 0 ≤ r2) (h2' : r2 < 1)
      (h3 : 0 ≤ r3) (h3' : r3 < 1) (h4 : 0 ≤ r4) (h4' : r4 < 1)
      (h5 : 0 ≤ r5) (h5' : r5 < 1) (h6 : 0 ≤ r6) (h6' : r6 < 1) :
      ReachableState (initializeSensorState plantId optimalTemp r1 r2 r3 r4 r5 r6 now)
  | advance (s : PlantState) (r1 r2 r3 r4 now : ℚ) (hs : ReachableState s)
      (h1 : 0 ≤ r1) (h1' : r1 < 1) (h2 : 0 ≤ r2) (h2' : r2 < 1)
      (h3 : 0 ≤ r3) (h3' : r3 < 1) (h4 : 0 ≤ r4) (h4' : r4 < 1)
      (hnow : s.lastWatered ≤ now) :
      ReachableState (advanceState s r1 r2 r3 r4 now)
  | water (s : PlantState) (now : ℚ) (hs : ReachableState s)
      (hnow : s.lastWatered ≤ now) :
      ReachableState (waterState s now)

/-! ## `src/app/api/sensors/ingest/route.ts` -/

/-- The JSON request body of `POST /sensors/ingest`: each field is `none`
when the key is absent from the body (destructuring then yields
`undefined`). -/
structure IngestBody where
  plantId : Option ℚ
  temperature : Option ℚ
  humidity : Option ℚ
  soilMoisture : Option ℚ
  lightIntensity : Option ℚ
  acousticData : Option (List ℚ)
deriving DecidableEq

/-- A stored sensor reading as the endpoint builds it; optional fields are
`none` where the code stores `null` (the `?? null` defaults), and
`timestamp` holds the ISO-8601 string `new Date().toISOString()`. -/
structure StoredReading where
  plantId : ℚ
  temperature : ℚ
  humidity : ℚ
  soilMoisture : Option ℚ
  lightIntensity : Option ℚ
  acousticData : Option (List ℚ)
  timestamp : String
deriving DecidableEq

/-- The two responses the `POST` handler can produce on a parsed body:
`badRequest` is the 400 error response, `created` the 201 response with
`success: true` and the stored reading. -/
inductive IngestResponse
  | badRequest (error : String)
  | created (reading : StoredReading)
deriving DecidableEq

/-- The HTTP status of an `IngestResponse`. -/
def responseStatus : IngestResponse → ℕ
  | .badRequest _ => 400
  | .created _ => 201

/-- JavaScript truthiness test on an optional number: `undefined` and `0`
are falsy (`NaN` cannot arise from parsed JSON). -/
def jsFalsy (v : Option ℚ) : Prop := v = none ∨ v = some 0

instance (v : Option ℚ) : Decidable (jsFalsy v) := by
  unfold jsFalsy; infer_instance

/-- The per-plant reading store of the route module
(`Map<number, any[]>`), as an association list. -/
def ReadingStore : Type := List (ℚ × List StoredReading)

/-- `sensorReadings.get(plantId)` (with `[]` for a fresh id, as the handler
inserts an empty array first). -/
def readingsGet (store : ReadingStore) (plantId : ℚ) : List StoredReading :=
  match store.find? (fun e => e.1 == plantId) with
  | none => []
  | some e => e.2

/-- `sensorReadings.set(plantId, readings)`. -/
def readingsSet (store : ReadingStore) (plantId : ℚ)
    (readings : List StoredReading) : ReadingStore :=
  match store with
  | [] => [(plantId, readings)]
  | e :: rest =>
      if e.1 == plantId then (plantId, readings) :: rest
      else e :: readingsSet rest plantId readings

/-- The reading object the handler constructs once validation passed
(lines 19–27 of `route.ts`); the `getD` defaults are never reached because
the guard has ruled the three fields present. -/
def mkIngestReading (body : IngestBody) (nowIso : String) : StoredReading :=
  ⟨body.plantId.getD 0, body.temperature.getD 0, body.humidity.getD 0,
   body.soilMoisture, body.lightIntensity, body.acousticData, nowIso⟩

/-- The `POST` handler of `route.ts` on a successfully parsed JSON body:
reject with 400 if `!plantId || temperature === undefined ||
humidity === undefined`; otherwise build the reading with the current ISO
timestamp, append it to the plant's history (evicting the oldest entry
beyond 1000), and answer 201 with the stored reading. -/
def ingestPOST (store : ReadingStore) (body : IngestBody) (nowIso : String) :
    ReadingStore × IngestResponse :=
  if jsFalsy body.plantId ∨ body.temperature = none ∨ body.humidity = none then
    (store, .badRequest "Missing required fields: plantId, temperature, humidity")
  else
    let reading := mkIngestReading body nowIso
    let readings := readingsGet store reading.plantId ++ [reading]
    let readings2 := if readings.length > 1000 then readings.tail else readings
    (readingsSet store reading.plantId readings2, .created reading)

/-- A sample ISO-8601 timestamp string, standing for
`new Date().toISOString()` in the concrete ingest evaluations. -/
def isoStamp : String := "2024-01-01T00:00:00.000Z"

/-- One `generateSensorReading` state step with random draws
`(1/2, 1/2, 29/30, 1/2)` — so the moisture walk moves by
`(29/30 − 1/2) · 3 = +1.4` — taken at time 0 (no decay since watering). -/
def moistStep (s : PlantState) : PlantState :=
  advanceState s (1/2) (1/2) (29/30) (1/2) 0

/-- A freshly initialized state for plant 1 at time 0 whose moisture jitter
draw `29/30` seeds `soilMoisture = 60 + (29/30 − 1/2) · 30 = 74`. -/
def moistInit : PlantState :=
  initializeSensorState 1 22 (1/2) (1/2) (29/30) (1/2) 0 0 0

/-- The state after twelve `moistStep` advances from `moistInit`:
its soil moisture is `74 + 12 · 1.4 = 90.8 > 90`. -/
def overWetState : PlantState := moistStep^[12] moistInit

/-! ## Basic lemmas about the JavaScript arithmetic helpers -/

theorem jsMin_eq_min (a b : ℚ) : jsMin a b = min a b := (min_def a b).symm

theorem jsMax_eq_max (a b : ℚ) : jsMax a b = max a b := (max_def a b).symm

theorem jsAbs_eq_abs (x : ℚ) : jsAbs x = |x| := by
  by_cases h : x < 0
  · rw [jsAbs, if_pos h, abs_of_neg h]
  · rw [jsAbs, if_neg h, abs_of_nonneg (le_of_not_lt h)]

theorem jsRound_eq_of (x : ℚ) (z : ℤ) (h1 : (z : ℚ) ≤ x + 1/2)
    (h2 : x + 1/2 < z + 1) : jsRound x = z := by
  rw [jsRound]
  exact Int.floor_eq_iff.mpr ⟨h1, h2⟩

/-- Unfolding lemma for `predictPlantHealth`: the returned record in terms
of the pre-clamp value and confidence of `predictRaw`. -/
theorem predictPlantHealth_eq (m : HealthModelState) (input : PlantHealthInput) :
    predictPlantHealth m input =
      ⟨jsMax 0 (jsMin 100 (predictRaw m input).1), round2 (predictRaw m input).2,
        if (predictRaw m input).1 > input.healthScore + 5 then .improving
        else if (predictRaw m input).1 < input.healthScore - 5 then .declining
        else .stable⟩ := rfl

theorem round2_conf65 : round2 (13/20) = 13/20 := by
  rw [round2, show jsRound ((13:ℚ)/20 * 100) = 65 from
    jsRound_eq_of _ 65 (by norm_num) (by norm_num)]
  norm_num

/-- `predictRaw` on the fallback path at the ideal inputs 23 / 60. -/
theorem predictRaw_ideal (s : ℚ) :
    predictRaw .noModel ⟨s, 23, 60⟩ = ((jsRound (s * (1/2) + 50) : ℚ), 13/20) := by
  rw [show predictRaw .noModel ⟨s, 23, 60⟩ =
      ((jsRound (s * (1/2) + (100 - jsAbs ((23:ℚ) - 23) * 5) * (1/4) +
        (100 - jsAbs ((60:ℚ) - 60) * (3/2)) * (1/4)) : ℚ), (13:ℚ)/20) from rfl]
  rw [show s * (1/2) + (100 - jsAbs ((23:ℚ) - 23) * 5) * (1/4) +
      (100 - jsAbs ((60:ℚ) - 60) * (3/2)) * (1/4) = s * (1/2) + 50 from by
    norm_num [jsAbs]; ring]

/-! ## Claims -/

/-- C1, counterexample: at `currentScore = 0` (in [0, 100]) with ideal
temperature 23 and humidity 60 and no model loaded, `predictPlantHealth`
returns `predictedHealth = 50`, not the current score 0: the fallback
formula at ideal conditions is `round(0.5·score + 50)`, which differs from
`score` everywhere except at 100. -/
theorem fallback_ideal_prediction_cex :
    (predictPlantHealth .noModel ⟨0, 23, 60⟩).predictedHealth = 50 ∧
    (predictPlantHealth .noModel ⟨0, 23, 60⟩).predictedHealth ≠ 0 := by
  rw [predictPlantHealth_eq, predictRaw_ideal,
    show jsRound ((0:ℚ) * (1/2) + 50) = 50 from
      jsRound_eq_of _ 50 (by norm_num) (by norm_num)]
  norm_num [jsMin, jsMax]

/-- C1 (amended): for every score in [0, 100], `predictPlantHealth` at the
ideal temperature 23 and humidity 60 with no model loaded returns the
fallback value `round(0.5·score + 50)` (since `tempScore = humidityScore
= 100`) with confidence 0.65; the trend is `improving` when that value
exceeds `score + 5` and `stable` otherwise (never `declining`), and at
`score = 100` the result is exactly `⟨100, 0.65, stable⟩`. -/
theorem fallback_ideal_prediction (s : ℚ) (h0 : 0 ≤ s) (h1 : s ≤ 100) :
    predictPlantHealth .noModel ⟨s, 23, 60⟩ =
      ⟨(jsRound (s * (1/2) + 50) : ℚ), 13/20,
        if (jsRound (s * (1/2) + 50) : ℚ) > s + 5 then .improving else .stable⟩ ∧
    (s = 100 → predictPlantHealth .noModel ⟨s, 23, 60⟩ = ⟨100, 13/20, .stable⟩) := by
  have hz50 : (50:ℤ) ≤ jsRound (s * (1/2) + 50) :=
    Int.le_floor.mpr (by push_cast; linarith)
  have hz100 : jsRound (s * (1/2) + 50) ≤ 100 := by
    have h' : jsRound (s * (1/2) + 50) < 101 :=
      Int.floor_lt.mpr (by push_cast; linarith)
    omega
  have hgt : ((jsRound (s * (1/2) + 50) : ℤ) : ℚ) > s - 5 := by
    have h' := Int.lt_floor_add_one (s * (1/2) + 50 + 1/2)
    rw [jsRound]
    push_cast at h' ⊢
    linarith
  have hclamp : jsMax 0 (jsMin 100 ((jsRound (s * (1/2) + 50) : ℤ) : ℚ)) =
      ((jsRound (s * (1/2) + 50) : ℤ) : ℚ) := by
    rw [jsMin_eq_min, jsMax_eq_max,
      min_eq_right (by exact_mod_cast hz100),
      max_eq_right (by exact_mod_cast le_trans (by norm_num) hz50)]
  have hmain : predictPlantHealth .noModel ⟨s, 23, 60⟩ =
      ⟨(jsRound (s * (1/2) + 50) : ℚ), 13/20,
        if (jsRound (s * (1/2) + 50) : ℚ) > s + 5 then .improving else .stable⟩ := by
    rw [predictPlantHealth_eq, predictRaw_ideal]
    rw [show (((jsRound (s * (1/2) + 50) : ℚ), (13:ℚ)/20).1) =
      ((jsRound (s * (1/2) + 50) : ℤ) : ℚ) from rfl]
    rw [hclamp, round2_conf65, if_neg (not_lt.mpr hgt.le)]
  refine ⟨hmain, fun hs => ?_⟩
  subst hs
  rw [hmain, show jsRound ((100:ℚ) * (1/2) + 50) = 100 from
    jsRound_eq_of _ 100 (by norm_num) (by norm_num)]
  norm_num

/-- C1, witness: the amended statement evaluated at score 100. -/
theorem fallback_ideal_prediction_inst :
    ((0:ℚ) ≤ 100 ∧ (100:ℚ) ≤ 100) ∧
    predictPlantHealth .noModel ⟨100, 23, 60⟩ = ⟨100, 13/20, .stable⟩ :=
  ⟨⟨by norm_num, le_refl 100⟩,
    (fallback_ideal_prediction 100 (by norm_num) (le_refl 100)).2 rfl⟩

/-- C3: evaluation at the failing input.  With a model loaded whose
inference throws, `predictPlantHealth ⟨80, 30, 40⟩` returns the initial
values `⟨80, 0.7, stable⟩` — the inner `catch` only logs and the heuristic
`else` branch is never reached — whereas the heuristic fallback path at the
same input produces `⟨74, 0.65, declining⟩`.  The claim that inference
failure yields the fallback result fails on the code, contradicting the
code's own log message `'Model prediction failed, using fallback'`. -/
theorem inference_error_keeps_current :
    predictPlantHealth .inferenceError ⟨80, 30, 40⟩ = ⟨80, 7/10, .stable⟩ ∧
    predictPlantHealth .noModel ⟨80, 30, 40⟩ = ⟨74, 13/20, .declining⟩ ∧
    predictPlantHealth .inferenceError ⟨80, 30, 40⟩ ≠
      predictPlantHealth .noModel ⟨80, 30, 40⟩ := by
  have h1 : predictPlantHealth .inferenceError ⟨80, 30, 40⟩ = ⟨80, 7/10, .stable⟩ := by
    rw [predictPlantHealth_eq,
      show predictRaw .inferenceError ⟨80, 30, 40⟩ = ((80:ℚ), 7/10) from rfl,
      round2, show jsRound ((7:ℚ)/10 * 100) = 70 from
        jsRound_eq_of _ 70 (by norm_num) (by norm_num)]
    norm_num [jsMin, jsMax]
  have h2 : predictPlantHealth .noModel ⟨80, 30, 40⟩ = ⟨74, 13/20, .declining⟩ := by
    have hraw : predictRaw .noModel ⟨80, 30, 40⟩ = ((74:ℚ), 13/20) := by
      rw [show predictRaw .noModel ⟨80, 30, 40⟩ =
          ((jsRound ((80:ℚ) * (1/2) + (100 - jsAbs ((30:ℚ) - 23) * 5) * (1/4) +
            (100 - jsAbs ((40:ℚ) - 60) * (3/2)) * (1/4)) : ℚ), (13:ℚ)/20) from rfl,
        show (80:ℚ) * (1/2) + (100 - jsAbs ((30:ℚ) - 23) * 5) * (1/4) +
          (100 - jsAbs ((40:ℚ) - 60) * (3/2)) * (1/4) = 295/4 from by
          norm_num [jsAbs],
        show jsRound ((295:ℚ)/4) = 74 from
          jsRound_eq_of _ 74 (by norm_num) (by norm_num)]
      norm_num
    rw [predictPlantHealth_eq, hraw, round2_conf65]
    norm_num [jsMin, jsMax]
  refine ⟨h1, h2, ?_⟩
  rw [h1, h2]
  simp only [ne_eq, PredictionResult.mk.injEq]
  norm_num

/-- C5, counterexample: at input `⟨currentScore 0, temperature 1000,
humidity 60⟩` on the fallback path, the pre-clamp prediction is −1171, so
the code classifies the trend as `declining`, yet the returned (clamped)
`predictedHealth` is 0, which is not `< 0 − 5`.  The returned trend is
therefore not equivalent to the deadband test on the returned value. -/
theorem trend_uses_unclamped_cex :
    (predictPlantHealth .noModel ⟨0, 1000, 60⟩).trend = .declining ∧
    ¬((predictPlantHealth .noModel ⟨0, 1000, 60⟩).predictedHealth < 0 - 5) := by
  have hraw : predictRaw .noModel ⟨0, 1000, 60⟩ = ((-1171 : ℚ), 13/20) := by
    rw [show predictRaw .noModel ⟨0, 1000, 60⟩ =
        ((jsRound ((0:ℚ) * (1/2) + (100 - jsAbs ((1000:ℚ) - 23) * 5) * (1/4) +
          (100 - jsAbs ((60:ℚ) - 60) * (3/2)) * (1/4)) : ℚ), (13:ℚ)/20) from rfl,
      show (0:ℚ) * (1/2) + (100 - jsAbs ((1000:ℚ) - 23) * 5) * (1/4) +
        (100 - jsAbs ((60:ℚ) - 60) * (3/2)) * (1/4) = -4685/4 from by
        norm_num [jsAbs],
      show jsRound ((-4685:ℚ)/4) = -1171 from
        jsRound_eq_of _ (-1171) (by norm_num) (by norm_num)]
    norm_num
  rw [predictPlantHealth_eq, hraw]
  norm_num [jsMin, jsMax]

/-- C5 (amended): on both paths the trend is classified from the pre-clamp
predicted value (the value of `predictRaw`), with the ±5 deadband around
`currentScore`; the returned `predictedHealth` is that value clamped to
[0, 100].  Consequently the biconditional with the returned value holds
whenever clamping does not change the value, but not in general. -/
theorem trend_deadband_unclamped (m : HealthModelState) (input : PlantHealthInput) :
    (predictPlantHealth m input).predictedHealth =
      max 0 (min 100 (predictRaw m input).1) ∧
    ((predictPlantHealth m input).trend = .improving ↔
      (predictRaw m input).1 > input.healthScore + 5) ∧
    ((predictPlantHealth m input).trend = .declining ↔
      (predictRaw m input).1 < input.healthScore - 5) ∧
    ((predictPlantHealth m input).trend = .stable ↔
      ¬((predictRaw m input).1 > input.healthScore + 5) ∧
      ¬((predictRaw m input).1 < input.healthScore - 5)) := by
  have hph : (predictPlantHealth m input).predictedHealth =
      max 0 (min 100 (predictRaw m input).1) := by
    rw [predictPlantHealth_eq, ← jsMin_eq_min, ← jsMax_eq_max]
  have htr : (predictPlantHealth m input).trend =
      (if (predictRaw m input).1 > input.healthScore + 5 then Trend.improving
       else if (predictRaw m input).1 < input.healthScore - 5 then Trend.declining
       else Trend.stable) := by
    rw [predictPlantHealth_eq]
  refine ⟨hph, ?_, ?_, ?_⟩ <;> (rw [htr]; split_ifs with ha hb <;> simp_all <;> linarith)

/-- C6: for every model state and every rational input (including
pathological ones such as temperature 1000), `predictPlantHealth` returns a
`predictedHealth` clamped into [0, 100]; the function is a total Lean
function (its JavaScript body performs only number arithmetic, which never
throws), and the outer catch clause — the result produced were any internal
error to occur — returns `⟨currentScore, 0.5, stable⟩`. -/
theorem predictPlantHealth_total (m : HealthModelState) (input : PlantHealthInput) :
    (0 ≤ (predictPlantHealth m input).predictedHealth ∧
      (predictPlantHealth m input).predictedHealth ≤ 100) ∧
    predictPlantHealthOnError input = ⟨input.healthScore, 1/2, .stable⟩ := by
  refine ⟨?_, rfl⟩
  have hph : (predictPlantHealth m input).predictedHealth =
      max 0 (min 100 (predictRaw m input).1) := by
    rw [predictPlantHealth_eq, ← jsMin_eq_min, ← jsMax_eq_max]
  rw [hph]
  exact ⟨le_max_left _ _, max_le (by norm_num) (min_le_left _ _)⟩

/-- C7: evaluation at the failing input.  On the fallback path with
`audioFeatures = [-2, 0]` (mean −1, variance 1) and `plantHealthScore =
100`, the coefficient of variation is `1 / (−1 + 0.001) < 0` and the
fallback applies no lower cap (unlike the model path's
`Math.min(1, Math.max(0, ·))`), so the returned `stressLevel` is −0.701 —
outside the [0, 1] range the `AcousticResult` data model requires. -/
theorem acoustic_fallback_negative_stress :
    (analyzeAcousticPattern .noModel [-2, 0] 100).stressLevel = -701/1000 ∧
    (analyzeAcousticPattern .noModel [-2, 0] 100).stressLevel < 0 ∧
    (analyzeAcousticPattern .noModel [-2, 0] 100).classification = .healthy := by
  have hsq1 : jsSqrt 1 = 1 := by
    rw [jsSqrt, show (1:ℚ) = 1 * 1 from by norm_num, Rat.sqrt_eq]
    norm_num
  have hstress : acousticFallbackStress [-2, 0] 100 = -700/999 := by
    simp only [acousticFallbackStress, List.sum_cons, List.sum_nil, List.map_cons,
      List.map_nil, List.length_cons, List.length_nil]
    norm_num [hsq1, jsMin]
  have hrd : round3 ((-700 : ℚ)/999) = -701/1000 := by
    rw [round3, show jsRound ((-700:ℚ)/999 * 1000) = -701 from
      jsRound_eq_of _ (-701) (by norm_num) (by norm_num)]
    norm_num
  have he : analyzeAcousticPattern .noModel [-2, 0] 100 =
      ⟨round3 (acousticFallbackStress [-2, 0] 100),
        classifyStress (acousticFallbackStress [-2, 0] 100),
        round2 (6/10 + (2/10) * (1 - jsAbs (acousticFallbackStress [-2, 0] 100 - 1/2)))⟩ :=
    rfl
  rw [he, hstress, hrd]
  refine ⟨rfl, by norm_num, ?_⟩
  rw [classifyStress, if_neg (by norm_num), if_neg (by norm_num)]

/-- C10: `waterPlant` on a plant id with no existing state is a silent
no-op: the store is unchanged (in particular no state is initialized — only
`initializeSensorState`, also invoked by the first `generateSensorReading`
for an id, ever creates state) and `getPlantState` still returns `none`
afterwards. -/
theorem waterPlant_missing_noop (store : PlantStore) (plantId now : ℚ)
    (h : getPlantState store plantId = none) :
    waterPlant store plantId now = store ∧
    getPlantState (waterPlant store plantId now) plantId = none := by
  have h' : store plantId = none := h
  have hw : waterPlant store plantId now = store := by
    unfold waterPlant
    rw [h']
  exact ⟨hw, by rw [getPlantState, hw]; exact h'⟩

/-- C10, witness: watering id 1 in the empty store leaves it empty. -/
theorem waterPlant_missing_noop_inst :
    getPlantState (fun _ => none) 1 = none ∧
    (waterPlant (fun _ => none) 1 0 = (fun _ => none : PlantStore) ∧
      getPlantState (waterPlant (fun _ => none) 1 0) 1 = none) :=
  ⟨rfl, waterPlant_missing_noop (fun _ => none) 1 0 rfl⟩

/-- C9: `generateSensorReading` stores the full-precision advanced state and
returns a reading whose temperature, humidity and soil moisture are that
state rounded to one decimal and whose light intensity is rounded to an
integer; a second call continues from the unrounded stored state (the
display rounding never feeds back), and the stored state genuinely carries
full precision (witnessed by a state whose stored temperature 22.05 differs
from its displayed 22.1). -/
theorem reading_display_rounding (s : PlantState) (r1 r2 r3 r4 now : ℚ)
    (noise : ℕ → ℚ) (q1 q2 q3 q4 now2 : ℚ) (noise2 : ℕ → ℚ) :
    (generateSensorReading s r1 r2 r3 r4 now noise).1 =
      advanceState s r1 r2 r3 r4 now ∧
    (generateSensorReading s r1 r2 r3 r4 now noise).2.temperature =
      round1 (generateSensorReading s r1 r2 r3 r4 now noise).1.temperature ∧
    (generateSensorReading s r1 r2 r3 r4 now noise).2.humidity =
      round1 (generateSensorReading s r1 r2 r3 r4 now noise).1.humidity ∧
    (generateSensorReading s r1 r2 r3 r4 now noise).2.soilMoisture =
      round1 (generateSensorReading s r1 r2 r3 r4 now noise).1.soilMoisture ∧
    (generateSensorReading s r1 r2 r3 r4 now noise).2.lightIntensity =
      (jsRound (generateSensorReading s r1 r2 r3 r4 now noise).1.lightIntensity : ℚ) ∧
    (generateSensorReading (generateSensorReading s r1 r2 r3 r4 now noise).1
        q1 q2 q3 q4 now2 noise2).1 =
      advanceState (advanceState s r1 r2 r3 r4 now) q1 q2 q3 q4 now2 ∧
    (advanceState (⟨1, 22 + 1/20, 60, 60, 500, 0, 0⟩ : PlantState)
        (1/2) (1/2) (1/2) (1/2) 0).temperature ≠
      round1 (advanceState (⟨1, 22 + 1/20, 60, 60, 500, 0, 0⟩ : PlantState)
        (1/2) (1/2) (1/2) (1/2) 0).temperature := by
  refine ⟨rfl, rfl, rfl, rfl, rfl, rfl, ?_⟩
  have ht : (advanceState (⟨1, 22 + 1/20, 60, 60, 500, 0, 0⟩ : PlantState)
      (1/2) (1/2) (1/2) (1/2) 0).temperature = 441/20 := by
    show jsMax 15 (jsMin 35 (22 + 1/20 + ((1:ℚ)/2 - 1/2) * (1/2))) = 441/20
    norm_num [jsMin, jsMax]
  rw [ht, round1, show jsRound ((441:ℚ)/20 * 10) = 221 from
    jsRound_eq_of _ 221 (by norm_num) (by norm_num)]
  norm_num

/-- C4: after any single `generateSensorReading` step from any state (hence,
inductively, after each call of any finite sequence, for every plant id),
the stored state satisfies the hard ranges: temperature ∈ [15, 35],
humidity ∈ [20, 95], soil moisture ∈ [10, 100], light ∈ [0, 1000] and
stress ∈ [0, 1].  The only assumption is clock sanity: the call happens no
earlier than the recorded `lastWatered` time. -/
theorem advanceState_bounds (s : PlantState) (r1 r2 r3 r4 now : ℚ)
    (h : s.lastWatered ≤ now) :
    15 ≤ (advanceState s r1 r2 r3 r4 now).temperature ∧
    (advanceState s r1 r2 r3 r4 now).temperature ≤ 35 ∧
    20 ≤ (advanceState s r1 r2 r3 r4 now).humidity ∧
    (advanceState s r1 r2 r3 r4 now).humidity ≤ 95 ∧
    10 ≤ (advanceState s r1 r2 r3 r4 now).soilMoisture ∧
    (advanceState s r1 r2 r3 r4 now).soilMoisture ≤ 100 ∧
    0 ≤ (advanceState s r1 r2 r3 r4 now).lightIntensity ∧
    (advanceState s r1 r2 r3 r4 now).lightIntensity ≤ 1000 ∧
    0 ≤ (advanceState s r1 r2 r3 r4 now).stressLevel ∧
    (advanceState s r1 r2 r3 r4 now).stressLevel ≤ 1 := by
  have hd : 0 ≤ (now - s.lastWatered) / 3600000 * (15/100) :=
    mul_nonneg (div_nonneg (sub_nonneg.mpr h) (by norm_num)) (by norm_num)
  have ht : (advanceState s r1 r2 r3 r4 now).temperature =
      max 15 (min 35 (s.temperature + (r1 - 1/2) * (1/2))) := by
    show jsMax 15 (jsMin 35 (s.temperature + (r1 - 1/2) * (1/2))) = _
    rw [jsMin_eq_min, jsMax_eq_max]
  have hh : (advanceState s r1 r2 r3 r4 now).humidity =
      max 20 (min 95 (s.humidity + (r2 - 1/2) * 2)) := by
    show jsMax 20 (jsMin 95 (s.humidity + (r2 - 1/2) * 2)) = _
    rw [jsMin_eq_min, jsMax_eq_max]
  have hl : (advanceState s r1 r2 r3 r4 now).lightIntensity =
      max 0 (min 1000 (s.lightIntensity + (r4 - 1/2) * 50)) := by
    show jsMax 0 (jsMin 1000 (s.lightIntensity + (r4 - 1/2) * 50)) = _
    rw [jsMin_eq_min, jsMax_eq_max]
  have hm : (advanceState s r1 r2 r3 r4 now).soilMoisture =
      max 10 (max 10 (min 100 (s.soilMoisture + (r3 - 1/2) * 3)) -
        (now - s.lastWatered) / 3600000 * (15/100)) := by
    show jsMax 10 (jsMax 10 (jsMin 100 (s.soilMoisture + (r3 - 1/2) * 3)) -
      (now - s.lastWatered) / 3600000 * (15/100)) = _
    rw [jsMin_eq_min, jsMax_eq_max, jsMax_eq_max]
  have hm100 : (advanceState s r1 r2 r3 r4 now).soilMoisture ≤ 100 := by
    rw [hm]
    refine max_le (by norm_num) ?_
    have h100 : max 10 (min 100 (s.soilMoisture + (r3 - 1/2) * 3)) ≤ 100 :=
      max_le (by norm_num) (min_le_left _ _)
    linarith
  have hm10 : 10 ≤ (advanceState s r1 r2 r3 r4 now).soilMoisture := by
    rw [hm]; exact le_max_left _ _
  have hst : (advanceState s r1 r2 r3 r4 now).stressLevel =
      min 1 ((|(advanceState s r1 r2 r3 r4 now).temperature - 22| / 10 +
        |(advanceState s r1 r2 r3 r4 now).humidity - 60| / 30 +
        |(advanceState s r1 r2 r3 r4 now).soilMoisture - 60| / 50) / 3) := by
    show jsMin 1 ((jsAbs ((advanceState s r1 r2 r3 r4 now).temperature - 22) / 10 +
      jsAbs ((advanceState s r1 r2 r3 r4 now).humidity - 60) / 30 +
      jsAbs ((advanceState s r1 r2 r3 r4 now).soilMoisture - 60) / 50) / 3) = _
    rw [jsMin_eq_min, jsAbs_eq_abs, jsAbs_eq_abs, jsAbs_eq_abs]
  refine ⟨?_, ?_, ?_, ?_, hm10, hm100, ?_, ?_, ?_, ?_⟩
  · rw [ht]; exact le_max_left _ _
  · rw [ht]; exact max_le (by norm_num) (min_le_left _ _)
  · rw [hh]; exact le_max_left _ _
  · rw [hh]; exact max_le (by norm_num) (min_le_left _ _)
  · rw [hl]; exact le_max_left _ _
  · rw [hl]; exact max_le (by norm_num) (min_le_left _ _)
  · rw [hst]; exact le_min (by norm_num) (by positivity)
  · rw [hst]; exact min_le_left _ _

/-- C4, witness: the bounds instantiated at a concrete state and step. -/
theorem advanceState_bounds_inst :
    (⟨1, 22, 60, 50, 500, 0, 0⟩ : PlantState).lastWatered ≤ 0 ∧
    (15 ≤ (advanceState ⟨1, 22, 60, 50, 500, 0, 0⟩ 0 0 0 0 0).temperature ∧
      (advanceState ⟨1, 22, 60, 50, 500, 0, 0⟩ 0 0 0 0 0).temperature ≤ 35 ∧
      20 ≤ (advanceState ⟨1, 22, 60, 50, 500, 0, 0⟩ 0 0 0 0 0).humidity ∧
      (advanceState ⟨1, 22, 60, 50, 500, 0, 0⟩ 0 0 0 0 0).humidity ≤ 95 ∧
      10 ≤ (advanceState ⟨1, 22, 60, 50, 500, 0, 0⟩ 0 0 0 0 0).soilMoisture ∧
      (advanceState ⟨1, 22, 60, 50, 500, 0, 0⟩ 0 0 0 0 0).soilMoisture ≤ 100 ∧
      0 ≤ (advanceState ⟨1, 22, 60, 50, 500, 0, 0⟩ 0 0 0 0 0).lightIntensity ∧
      (advanceState ⟨1, 22, 60, 50, 500, 0, 0⟩ 0 0 0 0 0).lightIntensity ≤ 1000 ∧
      0 ≤ (advanceState ⟨1, 22, 60, 50, 500, 0, 0⟩ 0 0 0 0 0).stressLevel ∧
      (advanceState ⟨1, 22, 60, 50, 500, 0, 0⟩ 0 0 0 0 0).stressLevel ≤ 1) :=
  ⟨le_refl 0, advanceState_bounds ⟨1, 22, 60, 50, 500, 0, 0⟩ 0 0 0 0 0 (le_refl 0)⟩

/-- C8, counterexample: a body in which all three required fields are
present — `plantId: 0, temperature: 20, humidity: 50` — is still rejected
with 400, because the guard tests `!plantId` (JavaScript truthiness) rather
than `plantId === undefined`, and `0` is falsy. -/
theorem ingest_zero_plantId_cex :
    responseStatus (ingestPOST [] ⟨some 0, some 20, some 50, none, none, none⟩
      isoStamp).2 = 400 ∧
    (⟨some 0, some 20, some 50, none, none, none⟩ : IngestBody).plantId ≠ none ∧
    (⟨some 0, some 20, some 50, none, none, none⟩ : IngestBody).temperature ≠ none ∧
    (⟨some 0, some 20, some 50, none, none, none⟩ : IngestBody).humidity ≠ none := by
  refine ⟨?_, by simp, by simp, by simp⟩
  have hfal : jsFalsy (⟨some 0, some 20, some 50, none, none, none⟩ :
      IngestBody).plantId := Or.inr rfl
  unfold ingestPOST
  rw [if_pos (Or.inl hfal)]
  rfl

/-- C8 (amended): `POST /sensors/ingest` returns 400 exactly when `plantId`
is missing *or equal to the falsy value 0*, or `temperature` or `humidity`
is missing; on every other body it returns 201 (`success: true`) with the
stored reading, which carries the current ISO timestamp. -/
theorem ingest_status_spec (store : ReadingStore) (body : IngestBody)
    (nowIso : String) :
    (responseStatus (ingestPOST store body nowIso).2 = 400 ↔
      body.plantId = none ∨ body.plantId = some 0 ∨
      body.temperature = none ∨ body.humidity = none) ∧
    (¬(body.plantId = none ∨ body.plantId = some 0 ∨
        body.temperature = none ∨ body.humidity = none) →
      (ingestPOST store body nowIso).2 = .created (mkIngestReading body nowIso) ∧
      (mkIngestReading body nowIso).timestamp = nowIso) := by
  unfold ingestPOST
  by_cases hc : jsFalsy body.plantId ∨ body.temperature = none ∨ body.humidity = none
  · rw [if_pos hc]
    unfold jsFalsy at hc
    refine ⟨⟨fun _ => by tauto, fun _ => rfl⟩, fun hn => absurd (by tauto) hn⟩
  · rw [if_neg hc]
    unfold jsFalsy at hc
    refine ⟨⟨fun h400 => absurd h400 (by norm_num [responseStatus]),
      fun hd => absurd (by tauto) hc⟩, fun _ => ⟨rfl, rfl⟩⟩

/-- C8, witness: a body with `plantId: 1, temperature: 20, humidity: 50`
is accepted and stored with the ISO timestamp. -/
theorem ingest_status_spec_inst :
    ¬((⟨some 1, some 20, some 50, none, none, none⟩ : IngestBody).plantId = none ∨
      (⟨some 1, some 20, some 50, none, none, none⟩ : IngestBody).plantId = some 0 ∨
      (⟨some 1, some 20, some 50, none, none, none⟩ : IngestBody).temperature = none ∨
      (⟨some 1, some 20, some 50, none, none, none⟩ : IngestBody).humidity = none) ∧
    ((ingestPOST [] ⟨some 1, some 20, some 50, none, none, none⟩ isoStamp).2 =
        .created (mkIngestReading ⟨some 1, some 20, some 50, none, none, none⟩
          isoStamp) ∧
      (mkIngestReading (⟨some 1, some 20, some 50, none, none, none⟩ : IngestBody)
          isoStamp).timestamp = isoStamp) := by
  have hn : ¬((⟨some 1, some 20, some 50, none, none, none⟩ : IngestBody).plantId = none ∨
      (⟨some 1, some 20, some 50, none, none, none⟩ : IngestBody).plantId = some 0 ∨
      (⟨some 1, some 20, some 50, none, none, none⟩ : IngestBody).temperature = none ∨
      (⟨some 1, some 20, some 50, none, none, none⟩ : IngestBody).humidity = none) := by
    simp
  exact ⟨hn, (ingest_status_spec [] _ isoStamp).2 hn⟩

/-- C2 (amended): on every state, `waterPlant` sets
`soilMoisture = min(90, soilMoisture + 40)` and `lastWatered` to now, so
afterwards the moisture is at most 90; when the previous moisture was at
most 90 the action never decreases it.  (When the previous moisture exceeds
90 — reachable, since the advance step caps moisture at 100 — the action
cuts it down to exactly 90; see the counterexample.) -/
theorem waterPlant_moisture_spec (s : PlantState) (now : ℚ)
    (h : s.soilMoisture ≤ 90) :
    (waterState s now).soilMoisture = jsMin 90 (s.soilMoisture + 40) ∧
    (waterState s now).lastWatered = now ∧
    s.soilMoisture ≤ (waterState s now).soilMoisture ∧
    (waterState s now).soilMoisture ≤ 90 := by
  refine ⟨rfl, rfl, ?_, ?_⟩
  · show s.soilMoisture ≤ jsMin 90 (s.soilMoisture + 40)
    rw [jsMin_eq_min]
    exact le_min h (by linarith)
  · show jsMin 90 (s.soilMoisture + 40) ≤ 90
    rw [jsMin_eq_min]
    exact min_le_left _ _

/-- C2, witness: the amended statement at a state with moisture 50. -/
theorem waterPlant_moisture_spec_inst :
    (⟨1, 22, 60, 50, 500, 0, 0⟩ : PlantState).soilMoisture ≤ 90 ∧
    ((waterState ⟨1, 22, 60, 50, 500, 0, 0⟩ 5).soilMoisture =
        jsMin 90 ((⟨1, 22, 60, 50, 500, 0, 0⟩ : PlantState).soilMoisture + 40) ∧
      (waterState ⟨1, 22, 60, 50, 500, 0, 0⟩ 5).lastWatered = 5 ∧
      (⟨1, 22, 60, 50, 500, 0, 0⟩ : PlantState).soilMoisture ≤
        (waterState ⟨1, 22, 60, 50, 500, 0, 0⟩ 5).soilMoisture ∧
      (waterState ⟨1, 22, 60, 50, 500, 0, 0⟩ 5).soilMoisture ≤ 90) :=
  ⟨show (50:ℚ) ≤ 90 from by norm_num,
    waterPlant_moisture_spec ⟨1, 22, 60, 50, 500, 0, 0⟩ 5
      (show (50:ℚ) ≤ 90 from by norm_num)⟩

/-- C2, counterexample: a reachable state with soil moisture 90.8 — seeded
at 74 and advanced twelve times with maximal-side moisture draws and no
decay — on which `waterPlant` *decreases* the soil moisture (to 90).
The claim that watering never decreases moisture fails on such states. -/
theorem waterPlant_moisture_decrease_cex :
    ReachableState overWetState ∧
    (waterState overWetState 0).soilMoisture < overWetState.soilMoisture := by
  have hlast : ∀ n : ℕ, (moistStep^[n] moistInit).lastWatered = 0 := by
    intro n
    induction n with
    | zero => show (0:ℚ) - 0 * 604800000 = 0; norm_num
    | succ n ih =>
        rw [Function.iterate_succ_apply']
        show (moistStep^[n] moistInit).lastWatered = 0
        exact ih
  have hreach : ∀ n : ℕ, ReachableState (moistStep^[n] moistInit) := by
    intro n
    induction n with
    | zero =>
        exact ReachableState.init 1 22 (1/2) (1/2) (29/30) (1/2) 0 0 0
          (by norm_num) (by norm_num) (by norm_num) (by norm_num)
          (by norm_num) (by norm_num) (by norm_num) (by norm_num)
          (by norm_num) (by norm_num) (by norm_num) (by norm_num)
    | succ n ih =>
        rw [Function.iterate_succ_apply']
        exact ReachableState.advance _ (1/2) (1/2) (29/30) (1/2) 0 ih
          (by norm_num) (by norm_num) (by norm_num) (by norm_num)
          (by norm_num) (by norm_num) (by norm_num) (by norm_num)
          (le_of_eq (hlast n))
  have hstep : ∀ t : PlantState, t.lastWatered = 0 → 10 ≤ t.soilMoisture →
      t.soilMoisture + 7/5 ≤ 100 →
      (moistStep t).soilMoisture = t.soilMoisture + 7/5 := by
    intro t h0 hlo hhi
    have e : (moistStep t).soilMoisture =
        jsMax 10 (jsMax 10 (jsMin 100 (t.soilMoisture + (29/30 - 1/2) * 3)) -
          (0 - t.lastWatered) / 3600000 * (15/100)) := rfl
    rw [e, h0]
    rw [show (0 - (0:ℚ)) / 3600000 * (15/100) = 0 from by norm_num, sub_zero]
    simp only [jsMin_eq_min, jsMax_eq_max]
    rw [show ((29:ℚ)/30 - 1/2) * 3 = 7/5 from by norm_num]
    rw [min_eq_right (by linarith), max_eq_right (le_max_left _ _),
      max_eq_right (by linarith)]
  have hval : ∀ n : ℕ, n ≤ 12 →
      (moistStep^[n] moistInit).soilMoisture = 74 + n * (7/5) := by
    intro n
    induction n with
    | zero =>
        intro _
        show (60 + ((29:ℚ)/30 - 1/2) * 30) = 74 + (0:ℕ) * (7/5)
        push_cast
        norm_num
    | succ n ih =>
        intro hn
        have hn' : n ≤ 12 := Nat.le_of_succ_le hn
        have hv := ih hn'
        have hcast : ((n:ℚ)) ≤ 11 := by
          have : n ≤ 11 := by omega
          exact_mod_cast this
        have hn0 : (0:ℚ) ≤ (n:ℚ) := Nat.cast_nonneg n
        have hlo : 10 ≤ (moistStep^[n] moistInit).soilMoisture := by
          rw [hv]
          nlinarith
        have hhi : (moistStep^[n] moistInit).soilMoisture + 7/5 ≤ 100 := by
          rw [hv]
          nlinarith
        rw [Function.iterate_succ_apply', hstep _ (hlast n) hlo hhi, hv]
        push_cast
        ring
  have h12 : overWetState.soilMoisture = 454/5 := by
    have hv := hval 12 (le_refl 12)
    show (moistStep^[12] moistInit).soilMoisture = 454/5
    rw [hv]
    push_cast
    norm_num
  refine ⟨hreach 12, ?_⟩
  have hw : (waterState overWetState 0).soilMoisture =
      jsMin 90 (overWetState.soilMoisture + 40) := rfl
  rw [hw, h12, jsMin_eq_min, min_eq_left (by norm_num)]
  norm_num
